import Mathlib

/-!
Shallow embedding of the Smart Home Automation program (src/main.py):
the Device/Observer pair, the Command undo/redo history, the Memento
caretaker, the command-text interpreter and the alert handler chain.
Observer `update` calls and `print` calls are modelled as an explicit
event list; Python object identity for commands and devices is modelled
by indices into explicit stores.
-/

namespace SmartHome

/-- A console-visible effect: an `Observer.update(msg)` call delivered to a
registered observer (identified by a `Nat` id), or a plain `print` line. -/
inductive Event where
  | notify (obs : Nat) (msg : String)
  | printed (line : String)
deriving DecidableEq, Repr

/-- `Event.isNotify e` is true when `e` is an observer notification. -/
def Event.isNotify : Event → Bool
  | .notify _ _ => true
  | .printed _ => false

/-- The `Device` class: a name, a mutable state string and the list of
registered observers (`self.observers`), in registration order. -/
structure Device where
  name : String
  state : String
  observers : List Nat
deriving DecidableEq, Repr

/-- `Device.__init__`: state starts as "OFF" with no observers. -/
def Device.init (name : String) : Device :=
  { name := name, state := "OFF", observers := [] }

/-- `Device.add_observer`: appends `obs` unless it is already registered. -/
def Device.add_observer (d : Device) (obs : Nat) : Device :=
  if obs ∈ d.observers then d else { d with observers := d.observers ++ [obs] }

/-- `Device.remove_observer`: removes the first occurrence of `obs`, if any. -/
def Device.remove_observer (d : Device) (obs : Nat) : Device :=
  if obs ∈ d.observers then { d with observers := d.observers.erase obs } else d

/-- `Device.set_state`: stores the new state; when the old state differs it
calls `update` on every observer, in order, with the message
`f"{self.name} -> {self.state}"` (the new state). Returns the updated
device together with the emitted notification events. -/
def Device.set_state (d : Device) (s : String) : Device × List Event :=
  let old := d.state
  let d' := { d with state := s }
  if old ≠ s then
    (d', d.observers.map (fun o => Event.notify o (d.name ++ " -> " ++ s)))
  else
    (d', [])

/-- The two concrete command classes, `TurnOnCommand` and `TurnOffCommand`. -/
inductive CommandKind where
  | turnOn
  | turnOff
deriving DecidableEq, Repr

/-- The state a command's `execute` writes: "ON" for `TurnOnCommand`,
"OFF" for `TurnOffCommand`. -/
def CommandKind.target : CommandKind → String
  | .turnOn => "ON"
  | .turnOff => "OFF"

/-- A `Command` object: the device it refers to (an index into the device
store), which concrete class it is, and its mutable `previous_state`
field (`None` on construction, a string after `execute`). -/
structure Command where
  deviceIdx : Nat
  kind : CommandKind
  previous_state : Option String
deriving DecidableEq, Repr

/-- Python truthiness of an `Optional[str]`: `None` and `""` are falsy. -/
def pyTruthy : Option String → Bool
  | none => false
  | some s => !(s == "")

/-- Placeholder device used to make store lookups total. -/
def defaultDevice : Device := { name := "", state := "", observers := [] }

/-- Placeholder command used to make store lookups total. -/
def defaultCommand : Command :=
  { deviceIdx := 0, kind := CommandKind.turnOn, previous_state := none }

/-- A program state: the device store, the command-object store, the
`CommandHistory` stacks (`self.history` and `self.redo_stack`, holding
command indices, most recent last) and the console output so far. -/
structure World where
  devices : List Device
  cmds : List Command
  history : List Nat
  redo_stack : List Nat
  output : List Event
deriving DecidableEq, Repr

/-- The command object stored at index `cid`. -/
def World.cmdAt (w : World) (cid : Nat) : Command :=
  w.cmds.getD cid defaultCommand

/-- The device object stored at index `i`. -/
def World.devAt (w : World) (i : Nat) : Device :=
  w.devices.getD i defaultDevice

/-- `CommandHistory.execute_command(command)`: runs `command.execute()`
(which captures `previous_state` from the device and sets the device state
to the command's target), appends the command to `history` and clears
`redo_stack`. -/
def World.execute_command (w : World) (cid : Nat) : World :=
  let c := w.cmdAt cid
  let d := w.devAt c.deviceIdx
  let c' := { c with previous_state := some d.state }
  let p := d.set_state c.kind.target
  { devices := w.devices.set c.deviceIdx p.1,
    cmds := w.cmds.set cid c',
    history := w.history ++ [cid],
    redo_stack := [],
    output := w.output ++ p.2 }

/-- `CommandHistory.undo()`: if `history` is non-empty, pops its last
command, runs `command.undo()` (which restores `previous_state` only when
that value is truthy) and appends the command to `redo_stack`. The method
contains no `print` call, so an empty history produces no output. -/
def World.undo (w : World) : World :=
  match w.history.getLast? with
  | none => w
  | some cid =>
    let hist := w.history.dropLast
    let c := w.cmdAt cid
    if pyTruthy c.previous_state then
      let p := (w.devAt c.deviceIdx).set_state (c.previous_state.getD "")
      { devices := w.devices.set c.deviceIdx p.1,
        cmds := w.cmds,
        history := hist,
        redo_stack := w.redo_stack ++ [cid],
        output := w.output ++ p.2 }
    else
      { w with history := hist, redo_stack := w.redo_stack ++ [cid] }

/-- `CommandHistory.redo()`: if `redo_stack` is non-empty, pops its last
command, runs `command.execute()` again and appends the command to
`history`. -/
def World.redo (w : World) : World :=
  match w.redo_stack.getLast? with
  | none => w
  | some cid =>
    let c := w.cmdAt cid
    let d := w.devAt c.deviceIdx
    let c' := { c with previous_state := some d.state }
    let p := d.set_state c.kind.target
    { devices := w.devices.set c.deviceIdx p.1,
      cmds := w.cmds.set cid c',
      history := w.history ++ [cid],
      redo_stack := w.redo_stack.dropLast,
      output := w.output ++ p.2 }

/-- One client call on the history: `execute_command` with any stored
command object, `undo`, or `redo`. -/
inductive Step : World → World → Prop where
  | exec (w : World) (cid : Nat) : Step w (w.execute_command cid)
  | und (w : World) : Step w w.undo
  | red (w : World) : Step w w.redo

/-- Reflexive-transitive closure of `Step`. -/
inductive Steps : World → World → Prop where
  | refl (w : World) : Steps w w
  | tail {w1 w2 w3 : World} : Steps w1 w2 → Step w2 w3 → Steps w1 w3

/-- A client call where `execute_command` is only given a command that is
not currently sitting on either stack (a fresh action). -/
inductive FreshStep : World → World → Prop where
  | exec (w : World) (cid : Nat) (h1 : cid ∉ w.history)
      (h2 : cid ∉ w.redo_stack) : FreshStep w (w.execute_command cid)
  | und (w : World) : FreshStep w w.undo
  | red (w : World) : FreshStep w w.redo

/-- States reachable from a freshly constructed `CommandHistory` (both
stacks empty) by fresh-action calls. -/
inductive FreshReachable : World → Prop where
  | init (devs : List Device) (cs : List Command) (out : List Event) :
      FreshReachable
        { devices := devs, cmds := cs, history := [], redo_stack := [],
          output := out }
  | step {w w' : World} : FreshReachable w → FreshStep w w' →
      FreshReachable w'

/-- A `DeviceMemento`: a saved state value. -/
structure DeviceMemento where
  state : String
deriving DecidableEq, Repr

/-- A `DeviceCaretaker`: the device it guards and its `saved_states` list,
oldest first. -/
structure DeviceCaretaker where
  device : Device
  saved_states : List DeviceMemento
deriving DecidableEq, Repr

/-- `DeviceCaretaker.save_state`: snapshots the device state into a memento,
appends it to `saved_states` and prints a confirmation line. -/
def DeviceCaretaker.save_state (ct : DeviceCaretaker) :
    DeviceCaretaker × List Event :=
  let m : DeviceMemento := { state := ct.device.state }
  ({ ct with saved_states := ct.saved_states ++ [m] },
   [Event.printed ("Config saved: " ++ m.state)])

/-- `DeviceCaretaker.restore_state` called with its default argument
`index = -1`, which selects the last element of `saved_states` (Python
negative indexing). When a memento exists it assigns `self.device.state`
directly — it does not go through `set_state` — and prints a confirmation
line; with no saved states it only prints a message. -/
def DeviceCaretaker.restore_state (ct : DeviceCaretaker) :
    DeviceCaretaker × List Event :=
  match ct.saved_states.getLast? with
  | some m =>
    ({ ct with device := { ct.device with state := m.state } },
     [Event.printed ("Config restored -> " ++ m.state)])
  | none => (ct, [Event.printed "No saved states to restore"])

/-- One link of the alert chain: the category it matches (`"motion"`,
`"alarm"`, `"police"` for the concrete handler classes) and the line it
prints when it handles a message. The chain itself is the list of links in
forwarding order (each handler's `next_handler` is the rest of the list). -/
structure AlertHandler where
  category : String
  react : String → String

/-- `handle_alert(alert_level, message)` on a chain: the head handler prints
its line and stops if `alert_level` equals its category; otherwise it
forwards to its successor; an empty chain (no successor) drops the alert. -/
def handle_alert : List AlertHandler → String → String → List Event
  | [], _, _ => []
  | h :: rest, level, message =>
    if level == h.category then [Event.printed (h.react message)]
    else handle_alert rest level message

/-- The concrete `MotionHandler` link. -/
def motionHandler : AlertHandler :=
  { category := "motion", react := fun m => "Motion detected! " ++ m }

/-- The concrete `AlarmHandler` link. -/
def alarmHandler : AlertHandler :=
  { category := "alarm", react := fun m => "Alarm triggered! " ++ m }

/-- The concrete `PoliceHandler` link. -/
def policeHandler : AlertHandler :=
  { category := "police", react := fun m => "Police notified! " ++ m }

/-- The chain built by the demo script: motion -> alarm -> police. -/
def demoChain : List AlertHandler := [motionHandler, alarmHandler, policeHandler]

/-- Python `str.lower` on one character, for the ASCII fragment this
program manipulates. -/
def pyLowerChar (c : Char) : Char :=
  if 'A' ≤ c ∧ c ≤ 'Z' then Char.ofNat (c.toNat + 32) else c

/-- The characters Python `str.strip()` removes by default. -/
def isPySpace (c : Char) : Bool :=
  c == ' ' || c == '\t' || c == '\n' || c == '\r' || c == '\x0b' || c == '\x0c'

/-- Python `str.strip()` on a character list: drop whitespace from both
ends. -/
def pyStrip (l : List Char) : List Char :=
  ((l.dropWhile isPySpace).reverse.dropWhile isPySpace).reverse

/-- `command_text.lower().strip()` as a character list. -/
def pyNormalize (s : String) : List Char :=
  pyStrip (s.toList.map pyLowerChar)

/-- `hay.startsWith needle` on character lists. -/
def startsWithSub : List Char → List Char → Bool
  | _, [] => true
  | [], _ :: _ => false
  | a :: as, b :: bs => a == b && startsWithSub as bs

/-- Python's `needle in hay` for strings: contiguous-substring test. -/
def containsSub (hay needle : List Char) : Bool :=
  match hay with
  | [] => needle.isEmpty
  | _ :: t => startsWithSub hay needle || containsSub t needle

/-- `CommandInterpreter.interpret(command_text, device)`: lowercases and
strips the text, then dispatches on substring matches in order —
"turn on"/"switch on", then "turn off"/"switch off", then "toggle" (which
flips to "OFF" exactly when the current state is "ON", else to "ON") —
and otherwise reports an unrecognized command. Returns the reply string,
the updated device, and the notification events from `set_state`. -/
def CommandInterpreter.interpret (command_text : String) (d : Device) :
    String × Device × List Event :=
  let t := pyNormalize command_text
  if containsSub t "turn on".toList || containsSub t "switch on".toList then
    let p := d.set_state "ON"
    ("Turning " ++ d.name ++ " ON", p.1, p.2)
  else if containsSub t "turn off".toList || containsSub t "switch off".toList then
    let p := d.set_state "OFF"
    ("Turning " ++ d.name ++ " OFF", p.1, p.2)
  else if containsSub t "toggle".toList then
    let new_state := if d.state == "ON" then "OFF" else "ON"
    let p := d.set_state new_state
    ("Toggling " ++ d.name ++ " to " ++ new_state, p.1, p.2)
  else
    ("Command not recognized", d, [])

/-! ### Helper lemmas -/

/-- `set_state` always stores the new state, whichever notification branch
is taken. -/
lemma set_state_fst (d : Device) (s : String) :
    (d.set_state s).1 = { d with state := s } := by
  by_cases h : d.state = s <;> simp [Device.set_state, h]

/-- The notifications `set_state` emits: one per observer on a change,
none otherwise. -/
lemma set_state_snd (d : Device) (s : String) :
    (d.set_state s).2 =
      if d.state ≠ s then
        d.observers.map (fun o => Event.notify o (d.name ++ " -> " ++ s))
      else [] := by
  by_cases h : d.state = s <;> simp [Device.set_state, h]

/-- Reading back the element just written, when the index is in range. -/
lemma getD_set_self {α : Type} (l : List α) (i : Nat) (a dflt : α)
    (h : i < l.length) : (l.set i a).getD i dflt = a := by
  simp [List.getD_eq_getElem?_getD, List.getElem?_set_self h]

/-- Writing one cell leaves the others unchanged. -/
lemma getD_set_ne {α : Type} (l : List α) (i j : Nat) (a dflt : α)
    (h : i ≠ j) : (l.set i a).getD j dflt = l.getD j dflt := by
  simp [List.getD_eq_getElem?_getD, List.getElem?_set_ne h]

/-- `undo` on an empty history returns the state unchanged. -/
lemma undo_empty (w : World) (h : w.history = []) : w.undo = w := by
  unfold World.undo
  rw [h]
  rfl

/-- `redo` on an empty redo stack returns the state unchanged. -/
lemma redo_empty (w : World) (h : w.redo_stack = []) : w.redo = w := by
  unfold World.redo
  rw [h]
  rfl

/-- Stack effect of `undo` on a non-empty history: the popped command moves
to the top of the redo stack, in both branches of the truthiness guard. -/
lemma undo_stacks (w : World) (hs : List Nat) (cid : Nat)
    (h : w.history = hs ++ [cid]) :
    (w.undo).history = hs ∧ (w.undo).redo_stack = w.redo_stack ++ [cid] := by
  unfold World.undo
  rw [h]
  simp only [List.getLast?_concat, List.dropLast_concat]
  split <;> simp

/-- Stack effect of `redo` on a non-empty redo stack. -/
lemma redo_stacks (w : World) (rs : List Nat) (cid : Nat)
    (h : w.redo_stack = rs ++ [cid]) :
    (w.redo).history = w.history ++ [cid] ∧ (w.redo).redo_stack = rs := by
  unfold World.redo
  rw [h, List.getLast?_concat]
  simp

/-- The immutable part of a command object: which device it drives and
which concrete class it is. Only `previous_state` ever changes. -/
def cmdSig (c : Command) : Nat × CommandKind := (c.deviceIdx, c.kind)

/-- Updating one command's `previous_state` in the store changes no
command's signature. -/
lemma cmdSig_set_prev (l : List Command) (i j : Nat) (p : Option String) :
    cmdSig ((l.set i { l.getD i defaultCommand with previous_state := p }).getD
      j defaultCommand) = cmdSig (l.getD j defaultCommand) := by
  by_cases hij : i = j
  · subst hij
    by_cases hi : i < l.length
    · rw [getD_set_self _ _ _ _ hi]
      rfl
    · rw [List.set_eq_of_length_le (Nat.le_of_not_lt hi)]
  · rw [getD_set_ne _ _ _ _ _ hij]

/-- `undo` never touches the command store. -/
lemma undo_cmds (w : World) : (w.undo).cmds = w.cmds := by
  unfold World.undo
  split
  · rfl
  · dsimp only
    split <;> rfl

/-- `undo` never changes the number of devices. -/
lemma undo_devices_length (w : World) :
    (w.undo).devices.length = w.devices.length := by
  unfold World.undo
  split
  · rfl
  · dsimp only
    split <;> simp

/-- `redo` never changes the number of devices. -/
lemma redo_devices_length (w : World) :
    (w.redo).devices.length = w.devices.length := by
  unfold World.redo
  split
  · rfl
  · simp

/-- `redo` never changes the number of commands. -/
lemma redo_cmds_length (w : World) :
    (w.redo).cmds.length = w.cmds.length := by
  unfold World.redo
  split
  · rfl
  · simp

/-- `execute_command` preserves store sizes and command signatures. -/
lemma sig_exec (w : World) (cid : Nat) :
    (w.execute_command cid).devices.length = w.devices.length ∧
    (w.execute_command cid).cmds.length = w.cmds.length ∧
    ∀ i, cmdSig ((w.execute_command cid).cmdAt i) = cmdSig (w.cmdAt i) := by
  refine ⟨?_, ?_, ?_⟩
  · show (w.devices.set _ _).length = _
    simp
  · show (w.cmds.set _ _).length = _
    simp
  · intro i
    exact cmdSig_set_prev w.cmds cid i _

/-- `undo` preserves store sizes and command signatures. -/
lemma sig_undo (w : World) :
    (w.undo).devices.length = w.devices.length ∧
    (w.undo).cmds.length = w.cmds.length ∧
    ∀ i, cmdSig ((w.undo).cmdAt i) = cmdSig (w.cmdAt i) := by
  refine ⟨undo_devices_length w, ?_, ?_⟩
  · rw [undo_cmds]
  · intro i
    show cmdSig ((w.undo).cmds.getD i defaultCommand)
      = cmdSig (w.cmds.getD i defaultCommand)
    rw [undo_cmds]

/-- `redo` preserves command signatures. -/
lemma redo_cmd_sig (w : World) (i : Nat) :
    cmdSig ((w.redo).cmdAt i) = cmdSig (w.cmdAt i) := by
  unfold World.redo
  split
  · rfl
  · rename_i cid heq
    exact cmdSig_set_prev w.cmds cid i _

/-- `redo` preserves store sizes and command signatures. -/
lemma sig_redo (w : World) :
    (w.redo).devices.length = w.devices.length ∧
    (w.redo).cmds.length = w.cmds.length ∧
    ∀ i, cmdSig ((w.redo).cmdAt i) = cmdSig (w.cmdAt i) :=
  ⟨redo_devices_length w, redo_cmds_length w, redo_cmd_sig w⟩

/-- Any single client call preserves store sizes and command signatures. -/
lemma step_sig {w w' : World} (h : Step w w') :
    w'.devices.length = w.devices.length ∧ w'.cmds.length = w.cmds.length ∧
    ∀ i, cmdSig (w'.cmdAt i) = cmdSig (w.cmdAt i) := by
  cases h with
  | exec cid => exact sig_exec w cid
  | und => exact sig_undo w
  | red => exact sig_redo w

/-- Any sequence of client calls preserves store sizes and command
signatures. -/
lemma steps_sig {w w' : World} (h : Steps w w') :
    w'.devices.length = w.devices.length ∧ w'.cmds.length = w.cmds.length ∧
    ∀ i, cmdSig (w'.cmdAt i) = cmdSig (w.cmdAt i) := by
  induction h with
  | refl => exact ⟨rfl, rfl, fun i => rfl⟩
  | tail hs hstep ih =>
    obtain ⟨a1, a2, a3⟩ := ih
    obtain ⟨b1, b2, b3⟩ := step_sig hstep
    exact ⟨b1.trans a1, b2.trans a2, fun i => (b3 i).trans (a3 i)⟩

/-- The device an executed command drives ends up in the command's target
state. -/
lemma exec_devAt_state (w : World) (cid : Nat)
    (hd : (w.cmdAt cid).deviceIdx < w.devices.length) :
    ((w.execute_command cid).devAt ((w.cmdAt cid).deviceIdx)).state
      = (w.cmdAt cid).kind.target := by
  show ((w.devices.set _ _).getD _ defaultDevice).state = _
  rw [getD_set_self _ _ _ _ hd, set_state_fst]

/-- The device a redone command drives ends up in the command's target
state. -/
lemma redo_devAt_state (w : World) (cid : Nat)
    (hlast : w.redo_stack.getLast? = some cid)
    (hd : (w.cmdAt cid).deviceIdx < w.devices.length) :
    ((w.redo).devAt ((w.cmdAt cid).deviceIdx)).state
      = (w.cmdAt cid).kind.target := by
  unfold World.redo
  rw [hlast]
  show ((w.devices.set _ _).getD _ defaultDevice).state = _
  rw [getD_set_self _ _ _ _ hd, set_state_fst]

/-- The two stacks hold no duplicate command between them, along any run
that only executes fresh actions. -/
lemma fresh_nodup {w : World} (h : FreshReachable w) :
    (w.history ++ w.redo_stack).Nodup := by
  induction h with
  | init devs cs out => simp
  | step ha hb ih =>
    rename_i w w'
    cases hb with
    | exec cid h1 h2 =>
      have hh : (w.execute_command cid).history = w.history ++ [cid] := rfl
      have hr : (w.execute_command cid).redo_stack = [] := rfl
      rw [hh, hr, List.append_nil]
      have hnh : w.history.Nodup := (List.nodup_append.1 ih).1
      exact hnh.append (List.nodup_singleton cid) (List.disjoint_singleton.2 h1)
    | und =>
      rcases List.eq_nil_or_concat w.history with hnil | ⟨hs, c, heq⟩
      · rw [undo_empty w hnil]
        exact ih
      · rw [List.concat_eq_append] at heq
        obtain ⟨e1, e2⟩ := undo_stacks w hs c heq
        rw [e1, e2]
        rw [heq] at ih
        have hperm : List.Perm (hs ++ [c] ++ w.redo_stack)
            (hs ++ (w.redo_stack ++ [c])) := by
          rw [List.append_assoc]
          exact List.Perm.append_left hs List.perm_append_comm
        exact ih.perm hperm
    | red =>
      rcases List.eq_nil_or_concat w.redo_stack with hnil | ⟨rs, c, heq⟩
      · rw [redo_empty w hnil]
        exact ih
      · rw [List.concat_eq_append] at heq
        obtain ⟨e1, e2⟩ := redo_stacks w rs c heq
        rw [e1, e2]
        rw [heq] at ih
        have hperm : List.Perm (w.history ++ (rs ++ [c]))
            (w.history ++ [c] ++ rs) := by
          rw [List.append_assoc]
          exact List.Perm.append_left _ List.perm_append_comm
        exact ih.perm hperm

/-! ### Claim theorems -/

/-- Claim C10: a newly constructed Device has status "OFF" and an empty
listener list, and an immediate `set_status("OFF")` keeps the status and
notifies no one. -/
theorem c10_fresh_device (n : String) :
    (Device.init n).state = "OFF" ∧ (Device.init n).observers = [] ∧
    ((Device.init n).set_state "OFF").1.state = "OFF" ∧
    ((Device.init n).set_state "OFF").2 = [] := by
  refine ⟨rfl, rfl, rfl, ?_⟩
  simp [Device.init, Device.set_state]

/-- Claim C6: `set_state` stores the new status; on an actual change it
notifies each registered listener exactly once, in registration order, with
a message containing the device name and the new status; on a same-value
set it notifies no one. -/
theorem c6_set_state_notifications (d : Device) (s : String) :
    (d.set_state s).1 = { d with state := s } ∧
    (d.state ≠ s →
      (d.set_state s).2 =
        d.observers.map (fun o => Event.notify o (d.name ++ " -> " ++ s))) ∧
    (d.state = s → (d.set_state s).2 = []) ∧
    (∀ o m, Event.notify o m ∈ (d.set_state s).2 →
      (∃ x y, m = x ++ d.name ++ y) ∧ (∃ x y, m = x ++ s ++ y)) := by
  refine ⟨set_state_fst d s, ?_, ?_, ?_⟩
  · intro hne
    rw [set_state_snd, if_pos hne]
  · intro he
    rw [set_state_snd, if_neg (by simpa using he)]
  · intro o m hm
    rw [set_state_snd] at hm
    split at hm
    · simp only [List.mem_map] at hm
      obtain ⟨o', _, he⟩ := hm
      injection he with ho hmsg
      constructor
      · refine ⟨"", " -> " ++ s, ?_⟩
        rw [← hmsg, String.append_assoc]
        rfl
      · refine ⟨d.name ++ " -> ", "", ?_⟩
        rw [← hmsg, String.append_empty]
    · simp at hm

/-- Witness for C6 at a concrete device and status change. -/
theorem c6_set_state_notifications_witness :
    ((Device.mk "Living Room Light" "OFF" [3, 7]).set_state "ON").2 =
      [Event.notify 3 "Living Room Light -> ON",
       Event.notify 7 "Living Room Light -> ON"] := by
  have h :=
    (c6_set_state_notifications (Device.mk "Living Room Light" "OFF" [3, 7])
      "ON").2.1 (by decide)
  rw [h]
  rfl

/-- The world at the start of the script's Command-pattern demo: the light
is ON with one registered observer, and a `TurnOffCommand` exists. -/
def demoWorld : World :=
  { devices := [{ name := "Living Room Light", state := "ON", observers := [0] }],
    cmds := [{ deviceIdx := 0, kind := CommandKind.turnOff, previous_state := none }],
    history := [], redo_stack := [], output := [] }

/-- A world whose device status is the empty string — a falsy value — with
a `TurnOnCommand` available. -/
def falsyPriorWorld : World :=
  { devices := [{ name := "Living Room Light", state := "", observers := [] }],
    cmds := [{ deviceIdx := 0, kind := CommandKind.turnOn, previous_state := none }],
    history := [], redo_stack := [], output := [] }

/-- Claim C1 evaluated at the failing input: when the status before
`execute` is the falsy value `""`, the truthiness guard in `Command.undo`
skips the restore, so after `execute_command` followed by `undo()` the
device stays "ON" instead of returning to `""` — even though the history
did pop the action onto the redo stack. -/
theorem c1_undo_skips_falsy_prior :
    (falsyPriorWorld.devAt 0).state = "" ∧
    ((falsyPriorWorld.execute_command 0).cmdAt 0).previous_state = some "" ∧
    (((falsyPriorWorld.execute_command 0).undo).devAt 0).state = "ON" ∧
    ((falsyPriorWorld.execute_command 0).undo).history = [] ∧
    ((falsyPriorWorld.execute_command 0).undo).redo_stack = [0] := by
  decide

/-- Claim C2: `execute_command` applies the action's effect to its device
(the state becomes the action's target and `previous_state` is captured),
appends the action to the undo stack, and leaves the redo stack empty — so
an immediately following `redo()` is a no-op. -/
theorem c2_execute_clears_redo (w : World) (cid : Nat)
    (hc : cid < w.cmds.length)
    (hd : (w.cmdAt cid).deviceIdx < w.devices.length) :
    (w.execute_command cid).history = w.history ++ [cid] ∧
    (w.execute_command cid).redo_stack = [] ∧
    ((w.execute_command cid).devAt ((w.cmdAt cid).deviceIdx)).state
      = (w.cmdAt cid).kind.target ∧
    ((w.execute_command cid).cmdAt cid).previous_state
      = some ((w.devAt ((w.cmdAt cid).deviceIdx)).state) ∧
    (w.execute_command cid).redo = w.execute_command cid := by
  refine ⟨rfl, rfl, ?_, ?_, ?_⟩
  · show ((w.devices.set _ _).getD _ defaultDevice).state = _
    rw [getD_set_self _ _ _ _ hd, set_state_fst]
  · show ((w.cmds.set _ _).getD _ defaultCommand).previous_state = _
    rw [getD_set_self _ _ _ _ hc]
  · exact redo_empty _ rfl

/-- Witness for C2 at the script's own demo scenario. -/
theorem c2_execute_clears_redo_witness :
    (demoWorld.execute_command 0).history = [0] ∧
    (demoWorld.execute_command 0).redo_stack = [] ∧
    (demoWorld.execute_command 0).redo = demoWorld.execute_command 0 := by
  have h := c2_execute_clears_redo demoWorld 0 (by decide) (by decide)
  exact ⟨by simpa using h.1, h.2.1, h.2.2.2.2⟩

/-- Counterexample to claim C5 as stated: `undo()` on an empty undo stack
is a complete no-op — in particular the output is unchanged, so no
"nothing to undo" message is reported (the method body contains no print
call). -/
theorem c5_counterexample :
    demoWorld.history = [] ∧ demoWorld.undo = demoWorld ∧
    (demoWorld.undo).output = [] := by
  decide

/-- Claim C5 as amended: `undo()` on an empty undo stack leaves the whole
state — both stacks, every device, and the console output — unchanged; it
neither reports a message nor raises. -/
theorem c5_undo_empty_noop (w : World) (h : w.history = []) : w.undo = w :=
  undo_empty w h

/-- Witness for amended C5. -/
theorem c5_undo_empty_noop_witness :
    ({ devices := [defaultDevice], cmds := [], history := [],
       redo_stack := [3], output := [] } : World).undo
      = { devices := [defaultDevice], cmds := [], history := [],
          redo_stack := [3], output := [] } :=
  c5_undo_empty_noop _ rfl

/-- Counterexample to claim C4 as stated: executing the *same* command
object twice through the history and then undoing once is a legal call
sequence, and it leaves that object on both stacks at once — the stacks are
not disjoint and the object occurs twice across them. -/
theorem c4_counterexample :
    Steps demoWorld (((demoWorld.execute_command 0).execute_command 0).undo) ∧
    (((demoWorld.execute_command 0).execute_command 0).undo).history = [0] ∧
    (((demoWorld.execute_command 0).execute_command 0).undo).redo_stack = [0] ∧
    ¬ ((((demoWorld.execute_command 0).execute_command 0).undo).history ++
        (((demoWorld.execute_command 0).execute_command 0).undo).redo_stack).Nodup := by
  refine ⟨?_, by decide, by decide, by decide⟩
  exact Steps.tail
    (Steps.tail (Steps.tail (Steps.refl _) (Step.exec _ 0)) (Step.exec _ 0))
    (Step.und _)

/-- Claim C4 as amended: in every state reachable from a fresh history by
`execute_command`/`undo`/`redo` calls in which each executed action is not
already on either stack, the two stacks are disjoint and no action occurs
twice across them. -/
theorem c4_fresh_actions_disjoint (w : World) (h : FreshReachable w) :
    w.history.Disjoint w.redo_stack ∧ (w.history ++ w.redo_stack).Nodup :=
  ⟨List.disjoint_of_nodup_append (fresh_nodup h), fresh_nodup h⟩

/-- Witness for amended C4 on a concrete reachable state. -/
theorem c4_fresh_actions_disjoint_witness :
    ((demoWorld.execute_command 0).undo).history.Disjoint
      ((demoWorld.execute_command 0).undo).redo_stack ∧
    (((demoWorld.execute_command 0).undo).history ++
      ((demoWorld.execute_command 0).undo).redo_stack).Nodup :=
  c4_fresh_actions_disjoint _
    (FreshReachable.step
      (FreshReachable.step (FreshReachable.init _ _ _)
        (FreshStep.exec _ 0 (by decide) (by decide)))
      (FreshStep.und _))

/-- The world at the spec's concrete scenario: a device that is OFF and a
`TurnOnCommand` for it. -/
def onWorld : World :=
  { devices := [{ name := "Living Room Light", state := "OFF", observers := [0] }],
    cmds := [{ deviceIdx := 0, kind := CommandKind.turnOn, previous_state := none }],
    history := [], redo_stack := [], output := [] }

/-- Claim C3: if an action was executed through the history and, after any
further calls, sits on top of the redo stack, then `redo()` pops it from
the redo stack, pushes it back onto the undo stack, and restores its
device to the exact status that held immediately after the original
execute; and `redo()` on an empty redo stack is a no-op. -/
theorem c3_redo_restores (w1 : World) (cid : Nat) (w3 : World)
    (hsteps : Steps (w1.execute_command cid) w3)
    (hlast : w3.redo_stack.getLast? = some cid)
    (hd : (w1.cmdAt cid).deviceIdx < w1.devices.length) :
    ((w3.redo).devAt ((w3.cmdAt cid).deviceIdx)).state
      = ((w1.execute_command cid).devAt ((w1.cmdAt cid).deviceIdx)).state ∧
    (w3.redo).history = w3.history ++ [cid] ∧
    (w3.redo).redo_stack = w3.redo_stack.dropLast ∧
    ∀ w : World, w.redo_stack = [] → w.redo = w := by
  have hsig2 := sig_exec w1 cid
  have hsig3 := steps_sig hsteps
  have hsigc : cmdSig (w3.cmdAt cid) = cmdSig (w1.cmdAt cid) := by
    rw [hsig3.2.2 cid, hsig2.2.2 cid]
  have hidx : (w3.cmdAt cid).deviceIdx = (w1.cmdAt cid).deviceIdx :=
    congrArg Prod.fst hsigc
  have hkind : (w3.cmdAt cid).kind = (w1.cmdAt cid).kind :=
    congrArg Prod.snd hsigc
  have hlen : w3.devices.length = w1.devices.length := by
    rw [hsig3.1, hsig2.1]
  have hd3 : (w3.cmdAt cid).deviceIdx < w3.devices.length := by
    rw [hidx, hlen]
    exact hd
  have hconcat : w3.redo_stack = w3.redo_stack.dropLast ++ [cid] := by
    rcases List.eq_nil_or_concat w3.redo_stack with hnil | ⟨rs, c, heq⟩
    · rw [hnil] at hlast
      simp at hlast
    · rw [List.concat_eq_append] at heq
      have hc : c = cid := by
        rw [heq, List.getLast?_concat] at hlast
        injection hlast
      subst hc
      rw [heq, List.dropLast_concat]
  obtain ⟨e1, e2⟩ := redo_stacks w3 _ cid hconcat
  refine ⟨?_, e1, e2, fun w hw => redo_empty w hw⟩
  rw [redo_devAt_state w3 cid hlast hd3, exec_devAt_state w1 cid hd, hkind]

/-- Witness for C3 at the spec's concrete OFF → execute → undo → redo
scenario. -/
theorem c3_redo_restores_witness :
    ((((onWorld.execute_command 0).undo).redo).devAt
        ((((onWorld.execute_command 0).undo).cmdAt 0).deviceIdx)).state
      = ((onWorld.execute_command 0).devAt ((onWorld.cmdAt 0).deviceIdx)).state ∧
    (((onWorld.execute_command 0).undo).redo).history
      = ((onWorld.execute_command 0).undo).history ++ [0] := by
  have h := c3_redo_restores onWorld 0 ((onWorld.execute_command 0).undo)
    (Steps.tail (Steps.refl _) (Step.und _)) (by decide) (by decide)
  exact ⟨h.1, h.2.1⟩

/-- Claim C7: dispatching an alert down any chain prints exactly one line —
the one produced by the first handler whose category equals the alert's —
and nothing past that match; non-matching handlers forward without acting;
with no match anywhere the alert is silently dropped (no output, no
error). -/
theorem c7_handle_alert_first_match (chain : List AlertHandler)
    (level message : String) :
    handle_alert chain level message =
      match chain.find? (fun h => level == h.category) with
      | some h => [Event.printed (h.react message)]
      | none => [] := by
  induction chain with
  | nil => rfl
  | cons h rest ih =>
    by_cases hm : level == h.category
    · simp [handle_alert, List.find?_cons, hm]
    · simp [handle_alert, List.find?_cons, hm, ih]

/-- Claim C8: on a caretaker with a non-empty saved-state list,
`restore_state` writes the saved status directly into the device's status
field, bypassing `set_state`, so no registered listener is notified — even
when the restored value differs from the current status. -/
theorem c8_restore_bypasses_listeners (ct : DeviceCaretaker)
    (m : DeviceMemento) (h : ct.saved_states.getLast? = some m) :
    (ct.restore_state).1.device.state = m.state ∧
    (ct.restore_state).1.device.name = ct.device.name ∧
    (ct.restore_state).1.device.observers = ct.device.observers ∧
    ∀ e ∈ (ct.restore_state).2, e.isNotify = false := by
  unfold DeviceCaretaker.restore_state
  rw [h]
  refine ⟨rfl, rfl, rfl, ?_⟩
  intro e he
  simp only [List.mem_singleton] at he
  rw [he]
  rfl

/-- Witness for C8 at a caretaker whose saved status differs from the
device's current status while a listener is registered. -/
theorem c8_restore_bypasses_listeners_witness :
    ((DeviceCaretaker.mk
        { name := "Living Room Light", state := "OFF", observers := [0] }
        [{ state := "ON" }]).restore_state).1.device.state = "ON" ∧
    ∀ e ∈ ((DeviceCaretaker.mk
        { name := "Living Room Light", state := "OFF", observers := [0] }
        [{ state := "ON" }]).restore_state).2, e.isNotify = false := by
  have h := c8_restore_bypasses_listeners
    (DeviceCaretaker.mk
      { name := "Living Room Light", state := "OFF", observers := [0] }
      [{ state := "ON" }])
    { state := "ON" } (by decide)
  exact ⟨h.1, h.2.2.2⟩

/-- Claim C9: for a command text that contains "toggle" after
lowercasing/stripping and none of the four on/off keywords, the
interpreter flips the device to "OFF" exactly when its current status is
"ON", and to "ON" for every other current status. -/
theorem c9_toggle_flips (text : String) (d : Device)
    (ht : containsSub (pyNormalize text) "toggle".toList = true)
    (h1 : containsSub (pyNormalize text) "turn on".toList = false)
    (h2 : containsSub (pyNormalize text) "switch on".toList = false)
    (h3 : containsSub (pyNormalize text) "turn off".toList = false)
    (h4 : containsSub (pyNormalize text) "switch off".toList = false) :
    (CommandInterpreter.interpret text d).2.1.state
      = (if d.state = "ON" then "OFF" else "ON") := by
  unfold CommandInterpreter.interpret
  dsimp only
  rw [h1, h2, h3, h4, ht]
  rw [if_neg (by simp), if_neg (by simp), if_pos rfl]
  dsimp only
  rw [set_state_fst]
  by_cases hd : d.state = "ON"
  · simp [hd]
  · simp [hd]

/-- Witness for C9: toggling from the non-ON status "DIM" lands on "ON". -/
theorem c9_toggle_flips_witness :
    (CommandInterpreter.interpret "  Toggle the light "
      { name := "Living Room Light", state := "DIM", observers := [] }).2.1.state
      = "ON" := by
  have h := c9_toggle_flips "  Toggle the light "
    { name := "Living Room Light", state := "DIM", observers := [] }
    (by decide) (by decide) (by decide) (by decide) (by decide)
  rw [h]
  decide

end SmartHome
